import Mathlib

set_option maxHeartbeats 1000000

/-!
Shallow embedding of the realm-swift predicate-compilation engine
(src/unnamed/part_001, i.e. RLMQueryUtil.mm, together with
src/Realm/RLMQueryBuilder.hpp), and proofs about the claims on it.

The storage engine (realm-core `Query`, `Table`, expression primitives) is an
external collaborator of this repository; following the spec (sections 2, 5, 6)
it is modelled through its narrow interface: a query is an accumulating boolean
expression with AND/OR/NOT grouping, and tables expose object-key validity.
-/

namespace RealmQuery

/-- Property types of a schema property (RLMPropertyType / realm PropertyType). -/
inductive PropertyType where
  | int
  | bool
  | float
  | double
  | string
  | data
  | date
  | objectId
  | decimal
  | object
  | linkingObjects
deriving DecidableEq, Repr

/-- Value types of a QueryMixed payload (realm DataType, without the null tag). -/
inductive DataType where
  | int
  | bool
  | float
  | double
  | string
  | binary
  | timestamp
  | objectId
  | decimal
  | link
  | linkList
deriving DecidableEq, Repr

/-- Storage column types (realm ColumnType), as consumed by validate_value. -/
inductive ColType where
  | int
  | bool
  | float
  | double
  | string
  | binary
  | timestamp
  | objectId
  | decimal
  | link
  | linkList
  | backLink
  | oldMixed
deriving DecidableEq, Repr

/-- Model of a C++ floating-point payload: NaN, or the exact rational value the
machine float denotes. Infinities do not arise in the claims under study. -/
inductive FP where
  | nan
  | num (q : ℚ)
deriving DecidableEq, Repr

/-- Truncation toward zero, as C++ float-to-integer conversion. NaN conversion is
undefined behaviour in the source; 0 stands in for it (never reached by a claim). -/
def FP.truncToInt : FP → Int
  | .nan => 0
  | .num q => q.num.tdiv q.den

/-- std::numeric_limits<float>::max() as an exact rational. -/
def floatMaxQ : ℚ := 2 ^ 128 - 2 ^ 104

/-- The tagged union QueryMixed (RLMQueryBuilder.hpp). A null StringData /
BinaryData / Timestamp / Decimal collapses to the null variant at construction,
exactly as the C++ constructors do, so the payloads here are never null. -/
inductive QueryMixed where
  | null
  | int (v : Int)
  | bool (v : Bool)
  | float (v : FP)
  | double (v : FP)
  | string (v : String)
  | binary (v : List Nat)
  | timestamp (v : Int)
  | objectId (v : String)
  | decimal (v : FP)
  | link (objectType : String) (key : Int)
  | array (vs : List QueryMixed)

def QueryMixed.isNull : QueryMixed → Bool
  | .null => true
  | _ => false

/-- QueryMixed::get_type(). The source asserts the value is non-null; reads on a
null value are modelled as `none` (which compares unequal to every DataType). -/
def QueryMixed.getType : QueryMixed → Option DataType
  | .null => none
  | .int _ => some .int
  | .bool _ => some .bool
  | .float _ => some .float
  | .double _ => some .double
  | .string _ => some .string
  | .binary _ => some .binary
  | .timestamp _ => some .timestamp
  | .objectId _ => some .objectId
  | .decimal _ => some .decimal
  | .link _ _ => some .link
  | .array _ => some .linkList

/-- QueryMixed::get<int64_t>: bool/int/float/double coerce to integer; all other
tags are REALM_UNREACHABLE in the source (0 stands in, never reached). -/
def QueryMixed.getInt : QueryMixed → Int
  | .bool b => if b then 1 else 0
  | .int v => v
  | .float f => f.truncToInt
  | .double f => f.truncToInt
  | _ => 0

/-- QueryMixed::get<bool>: a bool directly, an int by comparison with 0. -/
def QueryMixed.getBool : QueryMixed → Bool
  | .bool b => b
  | .int v => v != 0
  | _ => false

/-- QueryMixed::get<float> / get<double>: bool/int/float/double widen to the
floating payload; other tags are REALM_UNREACHABLE in the source. -/
def QueryMixed.getFP : QueryMixed → FP
  | .bool b => .num (if b then 1 else 0)
  | .int v => .num v
  | .float f => f
  | .double f => f
  | _ => .nan

/-- External primitive Decimal128::is_valid_str (realm-core, outside this
repository). Its exact acceptance set never decides a claim below; the model
takes the permissive constant. -/
def decimal128_is_valid_str (_ : String) : Bool := true

/-- External primitive Decimal128(StringData) (realm-core, outside this
repository). The parsed value never decides a claim below. -/
def decimal128_of_string (_ : String) : FP := .num 0

/-- QueryMixed::get<Decimal128>: numeric tags and strings convert; other tags are
REALM_UNREACHABLE in the source. -/
def QueryMixed.getDecimal : QueryMixed → FP
  | .bool b => .num (if b then 1 else 0)
  | .int v => .num v
  | .float f => f
  | .double f => f
  | .string s => decimal128_of_string s
  | .decimal f => f
  | _ => .nan

/-- QueryMixed::description(), used only inside error messages. The decimal case
of the source reads the object-id union member (a union pun); a fixed placeholder
stands in for that garbage read. -/
def FP.descr : FP → String
  | .nan => "nan"
  | .num q => toString q.num ++ (if q.den = 1 then "" else "/" ++ toString q.den)

def QueryMixed.description : QueryMixed → String
  | .null => "<null>"
  | .int v => toString v
  | .bool b => if b then "1" else "0"
  | .float f => f.descr
  | .double f => f.descr
  | .string s => s
  | .binary _ => "binary"
  | .timestamp _ => "timestamp"
  | .objectId s => s
  | .decimal _ => "<decimal>"
  | .link t _ => t
  | .array _ => "array"

/-- ColKey attributes consumed by validate_value: validity, nullability, list
flag and storage type. -/
structure ColKey where
  valid : Bool := true
  nullable : Bool
  list : Bool
  ctype : ColType
deriving DecidableEq, Repr

/-- type_is_numeric on a value type (the call sites pass QueryMixed::get_type();
a null value, modelled as `none`, matches no numeric tag). -/
def type_is_numeric : Option DataType → Bool
  | some .int => true
  | some .float => true
  | some .double => true
  | some .decimal => true
  | _ => false

/-- property_type_is_numeric. -/
def property_type_is_numeric : PropertyType → Bool
  | .int => true
  | .float => true
  | .double => true
  | .decimal => true
  | _ => false

/-- Modelled from the spec: realm's string_for_property_type (an object-store
utility outside this repository's sources) renders a property type's name for
error messages — the spec's failure taxonomy (section 7) names the offending
property types in TypeMismatch messages. -/
def string_for_property_type : PropertyType → String
  | .int => "int"
  | .bool => "bool"
  | .float => "float"
  | .double => "double"
  | .string => "string"
  | .data => "data"
  | .date => "date"
  | .objectId => "object id"
  | .decimal => "decimal128"
  | .object => "object"
  | .linkingObjects => "linking objects"

/-- The per-storage-type switch at the end of validate_value, for a non-null
scalar value. -/
def validate_scalar (value : QueryMixed) (col : ColKey) (object_type : String) : Bool :=
  if value.isNull then false
  else
    match col.ctype with
    | .string => value.getType = some .string
    | .bool =>
        value.getType = some .bool
          || (value.getType = some .int && (value.getInt = 0 || value.getInt = 1))
    | .timestamp => value.getType = some .timestamp
    | .int => value.getType = some .int
    | .float =>
        match value with
        | .double .nan => true
        | .double (.num q) => -floatMaxQ ≤ q && q ≤ floatMaxQ
        | _ => value.getType = some .float || value.getType = some .int
    | .double =>
        value.getType = some .float || value.getType = some .double
          || value.getType = some .int
    | .binary => value.getType = some .binary
    | .oldMixed => false
    | .backLink => true
    | .linkList =>
        match value with
        | .link t _ => t = object_type
        | _ => false
    | .link =>
        match value with
        | .link t _ => t = object_type
        | _ => false
    | .objectId => value.getType = some .objectId
    | .decimal =>
        type_is_numeric value.getType
          || (match value with
              | .string s => decimal128_is_valid_str s
              | _ => false)

/-- validate_value specialised to array = false. The recursive call inside
validate_value always passes array = false, so the source's recursion bottoms
out in exactly this code path. -/
def validate_value_scalar_ctx (value : QueryMixed) (col : ColKey) (object_type : String) : Bool :=
  if col.valid = false then true
  else if col.nullable && value.isNull then true
  else validate_scalar value col object_type

/-- validate_value (src/unnamed/part_001 lines 75-131). For an array column, a
LinkList value validates element-wise with array = false. -/
def validate_value (value : QueryMixed) (array : Bool) (col : ColKey) (object_type : String) : Bool :=
  if col.valid = false then true
  else if col.nullable && value.isNull then true
  else if array then
    match value with
    | .array vs => vs.all (fun v => validate_value_scalar_ctx v col object_type)
    | _ => validate_scalar value col object_type
  else validate_scalar value col object_type

example : validate_value (.int 1) false ⟨true, false, false, .bool⟩ "" = true := by decide
example : validate_value (.int 2) false ⟨true, false, false, .bool⟩ "" = false := by decide

/-- Schema property metadata (RLMProperty), restricted to the attributes the
compiler reads: name, type, optionality, to-many flag, link target and backlink
origin. The storage column name always mirrors the property name here (the model
identifies the table with its schema, as the spec's consistent-schema contract
allows). -/
structure RLMProperty where
  name : String
  type : PropertyType
  optional : Bool := false
  array : Bool := false
  objectClassName : String := ""
  linkOriginPropertyName : String := ""
deriving DecidableEq, Repr

/-- An object schema: class name plus ordered property list (RLMObjectSchema). -/
structure RLMObjectSchema where
  className : String
  properties : List RLMProperty
deriving DecidableEq, Repr

/-- objectSchema[propertyName] lookup. -/
def RLMObjectSchema.prop (os : RLMObjectSchema) (name : String) : Option RLMProperty :=
  os.properties.find? (fun p => p.name == name)

/-- The schema registry (RLMSchema): class name to object schema. -/
structure RLMSchema where
  objectSchemas : List RLMObjectSchema
deriving DecidableEq, Repr

/-- schema[className] lookup. -/
def RLMSchema.lookup (s : RLMSchema) (name : String) : Option RLMObjectSchema :=
  s.objectSchemas.find? (fun os => os.className == name)

/-- Modelled from the spec: the storage engine's Group exposes tables and
object-key validity (`TableHandle.get_object(key) -> ObjectHandle | invalid`,
section 6); the model records which (object type, key) pairs name live rows. -/
structure Group where
  isValidObject : String → Int → Bool

/-- The compilation context of a QueryBuilder apart from the query being built:
m_group and m_schema. The query itself (m_query) is threaded as explicit state. -/
structure QueryBuilder where
  group : Group
  schema : RLMSchema

/-- A resolved column binding (class ColumnReference): the traversed link
properties and the terminal property. The concrete table/ColKey resolution of
the source is recovered from the schema, which the model keeps consistent with
the tables. -/
structure ColumnReference where
  links : List RLMProperty
  property : RLMProperty
deriving DecidableEq, Repr

def ColumnReference.type (c : ColumnReference) : PropertyType := c.property.type

/-- Storage column type of a property (how the table stores it). -/
def colTypeOf (p : RLMProperty) : ColType :=
  match p.type with
  | .int => .int
  | .bool => .bool
  | .float => .float
  | .double => .double
  | .string => .string
  | .data => .binary
  | .date => .timestamp
  | .objectId => .objectId
  | .decimal => .decimal
  | .object => if p.array then .linkList else .link
  | .linkingObjects => .backLink

/-- The ColKey of the terminal property's storage column. -/
def ColumnReference.colKey (c : ColumnReference) : ColKey :=
  { valid := true
    nullable := c.property.optional
    list := c.property.array
    ctype := colTypeOf c.property }

def ColumnReference.has_links (c : ColumnReference) : Bool := !c.links.isEmpty

def ColumnReference.has_any_to_many_links (c : ColumnReference) : Bool :=
  c.links.any (fun p => p.array)

/-- last_link_column: the column for the final link of the chain. The source
asserts the chain is non-empty; the degenerate case returns the column itself
(never reached). -/
def ColumnReference.last_link_column (c : ColumnReference) : ColumnReference :=
  match c.links.getLast? with
  | some p => ⟨c.links.dropLast, p⟩
  | none => c

def ColumnReference.column_ignoring_links (c : ColumnReference) : ColumnReference :=
  ⟨[], c.property⟩

/-- link_target_object_schema: schema lookup of the terminal property's target. -/
def ColumnReference.link_target_object_schema (c : ColumnReference) (s : RLMSchema) :
    Option RLMObjectSchema :=
  s.lookup c.property.objectClassName

/-- is_valid_for_column (src line 356). -/
def is_valid_for_column (value : QueryMixed) (column : ColumnReference) : Bool :=
  validate_value value column.colKey.list column.colKey column.property.objectClassName

/-- util::format with %1..%9 positional arguments, as used by every
precondition failure message of the source. -/
def rlmFormatAux (args : List String) : List Char → List Char
  | [] => []
  | '%' :: c :: rest =>
      if c.isDigit && c ≠ '0' then
        (args.getD (c.toNat - 49) "").toList ++ rlmFormatAux args rest
      else '%' :: c :: rlmFormatAux args rest
  | c :: rest => c :: rlmFormatAux args rest

def rlmFormat (fmt : String) (args : List String) : String :=
  String.mk (rlmFormatAux args fmt.toList)

example : rlmFormat "Property %1 not found in %2" ["a", "B"] = "Property a not found in B" := by
  decide

/-- The result of key_path_from_string (struct KeyPath, src line 938). -/
structure KeyPath where
  links : List RLMProperty
  property : RLMProperty
  containsToManyRelationship : Bool
deriving DecidableEq, Repr

/-- Splits a character list at each dot, keeping empty segments, so that the
per-iteration view of the source's find-based loop is recovered: a trailing dot
yields a trailing empty segment, which the loop never enters (start == end). -/
def splitDots (chars : List Char) : List (List Char) :=
  chars.foldr
    (fun c acc =>
      match acc with
      | [] => if c = '.' then [[], []] else [[c]]
      | seg :: rest => if c = '.' then [] :: seg :: rest else (c :: seg) :: rest)
    []

example : splitDots "a.bc.d".toList = ["a".toList, "bc".toList, "d".toList] := by decide
example : splitDots "a.".toList = ["a".toList, []] := by decide
example : splitDots "".toList = [] := by decide

/-- The loop body of key_path_from_string over the dot-separated segments.
`seg :: rest` with `rest = [[]]` is the trailing-dot case: the source performs
the link step and then leaves the loop because start == end. -/
def key_path_go (schema : RLMSchema) (os : RLMObjectSchema) (links : List RLMProperty)
    (toMany : Bool) : List (List Char) → Except String KeyPath
  | [] =>
      -- empty key path: the source's loop never runs and returns an
      -- uninitialized property (undefined behaviour); never reached by claims
      .error "internal: empty key path"
  | [seg] =>
      let propertyName := String.mk seg
      match os.prop propertyName with
      | none =>
          .error (rlmFormat "Property '%1' not found in object of type '%2'"
            [propertyName, os.className])
      | some property => .ok ⟨links, property, toMany || property.array⟩
  | seg :: seg2 :: rest =>
      let propertyName := String.mk seg
      match os.prop propertyName with
      | none =>
          .error (rlmFormat "Property '%1' not found in object of type '%2'"
            [propertyName, os.className])
      | some property =>
          let toMany := toMany || property.array
          if property.type = .object || property.type = .linkingObjects then
            if seg2 :: rest = [[]] then
              -- trailing dot: the property was pushed as a link and the loop ends
              .ok ⟨links ++ [property], property, toMany⟩
            else
              match schema.lookup property.objectClassName with
              | none =>
                  -- nil target schema: subsequent lookups in the source message
                  -- nil and crash formatting the error; never reached by claims
                  .error "internal: unknown link target schema"
              | some next => key_path_go schema next (links ++ [property]) toMany (seg2 :: rest)
          else
            .error (rlmFormat "Property '%1' is not a link in object of type '%2'"
              [propertyName, os.className])

/-- key_path_from_string (src lines 944-977). -/
def key_path_from_string (schema : RLMSchema) (objectSchema : RLMObjectSchema)
    (keyPath : String) : Except String KeyPath :=
  key_path_go schema objectSchema [] false (splitDots keyPath.toList)

/-- QueryBuilder::column_reference_from_key_path (src lines 979-991). -/
def column_reference_from_key_path (b : QueryBuilder) (objectSchema : RLMObjectSchema)
    (keyPathString : String) (isAggregate : Bool) : Except String ColumnReference := do
  let keyPath ← key_path_from_string b.schema objectSchema keyPathString
  if isAggregate && !keyPath.containsToManyRelationship then
    .error "Aggregate operations can only be used on key paths that include an array property"
  else if !isAggregate && keyPath.containsToManyRelationship then
    .error "Key paths that include an array property must use aggregate operations"
  else
    .ok ⟨keyPath.links, keyPath.property⟩

/-- key_path_contains_collection_operator: StringData::contains("@"). -/
def key_path_contains_collection_operator (keyPath : String) : Bool :=
  keyPath.toList.any (fun c => c = '@')

/-- Result of get_collection_operation_name_from_key_path: the operation name
plus the leading key path and optional trailing key out-parameters. -/
structure CollOpKeyPath where
  operationName : String
  leadingKeyPath : String
  trailingKey : Option String
deriving DecidableEq, Repr

/-- get_collection_operation_name_from_key_path (src lines 1104-1121). -/
def get_collection_operation_name_from_key_path (keyPath : String) :
    Except String CollOpKeyPath :=
  let chars := keyPath.toList
  let before := chars.takeWhile (fun c => c ≠ '@')
  match chars.dropWhile (fun c => c ≠ '@') with
  | [] => .error (rlmFormat "Invalid key path '%1'" [keyPath])
  | _ :: rest =>
      if before = [] ∨ rest = [] ∨ before.getLast? ≠ some '.' then
        .error (rlmFormat "Invalid key path '%1'" [keyPath])
      else
        let leading := String.mk before.dropLast
        let opPart := rest.takeWhile (fun c => c ≠ '.')
        match rest.dropWhile (fun c => c ≠ '.') with
        | [] => .ok ⟨String.mk ('@' :: opPart), leading, none⟩
        | _ :: t => .ok ⟨String.mk ('@' :: opPart), leading, some (String.mk t)⟩

example :
    get_collection_operation_name_from_key_path "friends.@count" =
      .ok ⟨"@count", "friends", none⟩ := rfl
example :
    get_collection_operation_name_from_key_path "list.@sum.value" =
      .ok ⟨"@sum", "list", some "value"⟩ := rfl
example :
    get_collection_operation_name_from_key_path "@count" =
      .error "Invalid key path '@count'" := rfl

/-- Comparison operators (enum class OperatorType, RLMQueryBuilder.hpp).
`isIn` is OperatorType::In (In is a reserved word in Lean). -/
inductive OperatorType where
  | equal
  | notEqual
  | lessThan
  | lessThanOrEqual
  | greaterThan
  | greaterThanOrEqual
  | beginsWith
  | endsWith
  | contains
  | like
  | isIn
  | matches
  | between
deriving DecidableEq, Repr

/-- operatorName (src lines 221-239). -/
def operatorName : OperatorType → String
  | .lessThan => "<"
  | .lessThanOrEqual => "<="
  | .greaterThan => ">"
  | .greaterThanOrEqual => ">="
  | .equal => "=="
  | .notEqual => "!="
  | .matches => "MATCHES"
  | .like => "LIKE"
  | .beginsWith => "BEGINSWITH"
  | .endsWith => "ENDSWITH"
  | .isIn => "IN"
  | .contains => "CONTAINS"
  | .between => "BETWEEN"

/-- Comparison options (enum class ComparisonOptions): independent flags, here
one field per bit. -/
structure ComparisonOptions where
  caseInsensitive : Bool := false
  diacriticInsensitive : Bool := false
  normalized : Bool := false
  localeSensitive : Bool := false
deriving DecidableEq, Repr

def ComparisonOptions.none : ComparisonOptions := {}

/-- Predicate modifiers (Predicate::Modifier). -/
inductive Modifier where
  | direct
  | all
  | any
deriving DecidableEq, Repr

/-- Compound predicate kinds (CompoundPredicateType). -/
inductive CompoundPredicateType where
  | and
  | or
  | not
deriving DecidableEq, Repr

/-- NSExpression expression-type tags (PredicateExpression::Type). -/
inductive ExprType where
  | constantValue
  | evaluatedObject
  | variable
  | keyPath
  | function
  | unionSet
  | intersectSet
  | minusSet
  | subquery
  | aggregate
  | anyKey
  | block
  | conditional
deriving DecidableEq, Repr

/-- Expression tags other than the five carrying a payload the compiler reads. -/
inductive OtherExprType where
  | evaluatedObject
  | variable
  | unionSet
  | intersectSet
  | minusSet
  | anyKey
  | block
  | conditional
deriving DecidableEq, Repr

def OtherExprType.toExprType : OtherExprType → ExprType
  | .evaluatedObject => .evaluatedObject
  | .variable => .variable
  | .unionSet => .unionSet
  | .intersectSet => .intersectSet
  | .minusSet => .minusSet
  | .anyKey => .anyKey
  | .block => .block
  | .conditional => .conditional

mutual
/-- The expression nodes of the predicate AST (class PredicateExpression).
The C++ class stores a type tag plus all payload fields; here each tag carries
exactly the payload its constructor initializes, and the accessors below return
the C++ default value for fields a constructor left empty. -/
inductive PredicateExpression where
  | constantValue (value : QueryMixed)
  | aggregate (value : QueryMixed)
  | keyPath (keyPath : String)
  | function (operand : PredicateExpression) (functionName : String)
      (argument : PredicateExpression)
  | subquery (keyPath : String) (predicate : Predicate)
  | other (t : OtherExprType)

/-- The predicate AST (class Predicate). `base` corresponds to Kind::Base, the
default-constructed kind. Compound children are an ordered list; a comparison
carries both operand expressions, modifier, operator and options. -/
inductive Predicate where
  | tru
  | fls
  | comparison (left right : PredicateExpression) (modifier : Modifier)
      (op : OperatorType) (options : ComparisonOptions)
  | compound (compoundType : CompoundPredicateType) (subpredicates : List Predicate)
  | base
end

/-- PredicateExpression::type(). -/
def PredicateExpression.etype : PredicateExpression → ExprType
  | .constantValue _ => .constantValue
  | .aggregate _ => .aggregate
  | .keyPath _ => .keyPath
  | .function _ _ _ => .function
  | .subquery _ _ => .subquery
  | .other t => t.toExprType

/-- PredicateExpression::value(); m_value defaults to the null QueryMixed. -/
def PredicateExpression.valueOf : PredicateExpression → QueryMixed
  | .constantValue v => v
  | .aggregate v => v
  | _ => .null

/-- PredicateExpression::key_path(); m_key_path defaults to the empty string. -/
def PredicateExpression.keyPathOf : PredicateExpression → String
  | .keyPath k => k
  | .subquery k _ => k
  | _ => ""

/-- Aggregate kinds reached through a link (CollectionOperation::Type minus
Count, which resolves to a plain link count). -/
inductive CollAggKind where
  | minimum
  | maximum
  | sum
  | average
deriving DecidableEq, Repr

/-- Kinds of diacritic-insensitive comparator expressions built by
add_string_constraint: ContainsSubstring with Anchored, Anchored|Backwards or no
anchor flag, and Equal. -/
inductive DIKind where
  | containsAnchored
  | containsAnchoredBackwards
  | containsUnanchored
  | equalDI
deriving DecidableEq, Repr

/-- String-typed expression operands: null, a constant string, or a string
column (value_of_type<String> of realm::null / QueryMixed / ColumnReference). -/
inductive StrVal where
  | null
  | str (s : String)
  | col (c : ColumnReference)
deriving DecidableEq, Repr

mutual
/-- Operands of primitive comparisons in the built query expression: resolved
columns, converted constants, nulls, table objects, link counts, collection
aggregates and subquery counts. -/
inductive Operand where
  | col (c : ColumnReference)
  | null
  | int (v : Int)
  | bool (v : Bool)
  | fp (v : FP)
  | timestamp (v : Int)
  | objId (v : String)
  | obj (objectType : String) (key : Int)
  | collCount (link : ColumnReference)
  | collAgg (kind : CollAggKind) (link : ColumnReference) (target : ColumnReference)
  | subqueryCount (link : ColumnReference) (sub : Option QExpr)

/-- Primitive constraints (the leaf expressions handed to Query::and_query). -/
inductive QAtom where
  | cmp (dtype : PropertyType) (op : OperatorType) (lhs rhs : Operand)
  | strCmp (op : OperatorType) (caseSensitive : Bool) (column : ColumnReference)
      (value : StrVal)
  | diStrCmp (kind : DIKind) (caseInsensitive : Bool) (lhs rhs : StrVal)
  | strColSizeNonZero (c : ColumnReference)
  | binCmp (op : OperatorType) (column : ColumnReference) (value : Option (List Nat))

/-- Modelled from the spec: the composable boolean query expression the storage
engine executes (spec section 6), with constant-true/false leaves
(TrueExpression / FalseExpression), primitive constraints, and AND/OR/NOT. -/
inductive QExpr where
  | tru
  | fls
  | atom (a : QAtom)
  | band (a b : QExpr)
  | bor (a b : QExpr)
  | bnot (a : QExpr)
end

/-- Row-level meaning of a built expression under a valuation of the primitive
constraints (a valuation is the truth value each primitive takes on a row). -/
def QExpr.eval (ρ : QAtom → Bool) : QExpr → Bool
  | .tru => true
  | .fls => false
  | .atom a => ρ a
  | .band a b => a.eval ρ && b.eval ρ
  | .bor a b => a.eval ρ || b.eval ρ
  | .bnot a => !(a.eval ρ)

/-- Modelled from the spec: one open group of the query under construction (the
"current query scope" of spec section 4.4) — the conjunction/disjunction built
so far plus the pending Or()/Not() markers that apply to the next condition. -/
structure GroupFrame where
  acc : Option QExpr := Option.none
  pendingOr : Bool := false
  pendingNot : Nat := 0

/-- Modelled from the spec: the state of realm::Query while the builder runs —
the innermost group under construction plus the stack of enclosing open groups
(Query::group / end_group / Or / Not / and_query of the storage engine's
interface). -/
structure QueryState where
  outer : List GroupFrame := []
  cur : GroupFrame := {}

def freshState : QueryState := {}

def applyNots : Nat → QExpr → QExpr
  | 0, e => e
  | n + 1, e => .bnot (applyNots n e)

/-- Query::and_query(e): attach a finished condition to the current group,
consuming any pending Not()s and joining with OR if an Or() is pending. -/
def QueryState.andQuery (st : QueryState) (e : QExpr) : QueryState :=
  let f := st.cur
  let e2 := applyNots f.pendingNot e
  let acc :=
    match f.acc with
    | Option.none => some e2
    | some a => some (if f.pendingOr then QExpr.bor a e2 else QExpr.band a e2)
  { st with cur := ⟨acc, false, 0⟩ }

/-- Query::group(): open a nested group. -/
def QueryState.group (st : QueryState) : QueryState :=
  ⟨st.cur :: st.outer, {}⟩

/-- Query::end_group(): close the innermost group and attach it to its parent as
one condition. An empty group is vacuous; closing with no open group is a state
the compiler never produces (modelled as a no-op). -/
def QueryState.endGroup (st : QueryState) : QueryState :=
  match st.outer with
  | [] => st
  | f :: rest =>
      match st.cur.acc with
      | Option.none => ⟨rest, f⟩
      | some e => QueryState.andQuery ⟨rest, f⟩ e

/-- Query::Or(): the next condition joins the current group disjunctively. -/
def QueryState.orNext (st : QueryState) : QueryState :=
  { st with cur := { st.cur with pendingOr := true } }

/-- Query::Not(): the next condition is negated. -/
def QueryState.notNext (st : QueryState) : QueryState :=
  { st with cur := { st.cur with pendingNot := st.cur.pendingNot + 1 } }

/-- The finished expression of a completed build (all groups closed). -/
def QueryState.result (st : QueryState) : Option QExpr := st.cur.acc

/-- Modelled from the spec: group-level validate(query) returns an error message
for a structurally incomplete query and the empty string otherwise (spec
section 6); a build that closed all its groups and left no dangling Or()/Not()
is well-formed. -/
def queryValidate (st : QueryState) : String :=
  if st.outer.isEmpty && st.cur.pendingOr = false && st.cur.pendingNot = 0 then ""
  else "Syntax error in query"

/-- The builder computations: state transformers over the query under
construction that can fail with a precondition message (the source throws). -/
def QB : Type := QueryState → Except String QueryState

/-- QueryBuilder::add_numeric_constraint (src lines 552-581). -/
def add_numeric_constraint (datatype : PropertyType) (operatorType : OperatorType)
    (lhs rhs : Operand) : QB := fun st =>
  match operatorType with
  | .lessThan => .ok (st.andQuery (.atom (.cmp datatype .lessThan lhs rhs)))
  | .lessThanOrEqual => .ok (st.andQuery (.atom (.cmp datatype .lessThanOrEqual lhs rhs)))
  | .greaterThan => .ok (st.andQuery (.atom (.cmp datatype .greaterThan lhs rhs)))
  | .greaterThanOrEqual => .ok (st.andQuery (.atom (.cmp datatype .greaterThanOrEqual lhs rhs)))
  | .equal => .ok (st.andQuery (.atom (.cmp datatype .equal lhs rhs)))
  | .notEqual => .ok (st.andQuery (.atom (.cmp datatype .notEqual lhs rhs)))
  | _ =>
      .error (rlmFormat "Operator '%1' not supported for type '%2'"
        [operatorName operatorType, string_for_property_type datatype])

/-- QueryBuilder::add_bool_constraint (src lines 583-598). -/
def add_bool_constraint (datatype : PropertyType) (operatorType : OperatorType)
    (lhs rhs : Operand) : QB := fun st =>
  match operatorType with
  | .equal => .ok (st.andQuery (.atom (.cmp datatype .equal lhs rhs)))
  | .notEqual => .ok (st.andQuery (.atom (.cmp datatype .notEqual lhs rhs)))
  | _ =>
      .error (rlmFormat "Operator '%1' not supported for type '%2'"
        [operatorName operatorType, string_for_property_type datatype])

/-- QueryBuilder::add_substring_constraint, the three overloads dispatched on
the right-hand side's type (src lines 600-619): a null or empty right-hand side
degrades to the constant-false expression; a column right-hand side guards the
condition with a non-zero-size check on that column. -/
def add_substring_constraint (value : StrVal) (condition : QExpr) : QB := fun st =>
  match value with
  | .null => .ok (st.andQuery .fls)
  | .str s => .ok (st.andQuery (if s.length ≠ 0 then condition else .fls))
  | .col c => .ok (st.andQuery (.band (.atom (.strColSizeNonZero c)) condition))

/-- The BinaryData instantiation of the add_substring_constraint template:
BinaryData has no dedicated null overload, a null BinaryData has size 0. -/
def add_substring_constraint_bin (value : Option (List Nat)) (condition : QExpr) : QB :=
  fun st =>
    match value with
    | Option.none => .ok (st.andQuery .fls)
    | some bytes => .ok (st.andQuery (if bytes.length ≠ 0 then condition else .fls))

/-- QueryBuilder::add_string_constraint (src lines 621-700), for a string column
on the left. Diacritic-sensitive operators build storage-engine string
conditions; diacritic-insensitive ones build CFString-comparator expressions,
with NotEqual emitted as Query::Not() before the equality. -/
def add_string_constraint (operatorType : OperatorType) (predicateOptions : ComparisonOptions)
    (column : ColumnReference) (value : StrVal) : QB := fun st =>
  let caseSensitive := !predicateOptions.caseInsensitive
  let diacriticSensitive := !predicateOptions.diacriticInsensitive
  if diacriticSensitive then
    match operatorType with
    | .beginsWith =>
        add_substring_constraint value (.atom (.strCmp .beginsWith caseSensitive column value)) st
    | .endsWith =>
        add_substring_constraint value (.atom (.strCmp .endsWith caseSensitive column value)) st
    | .contains =>
        add_substring_constraint value (.atom (.strCmp .contains caseSensitive column value)) st
    | .equal => .ok (st.andQuery (.atom (.strCmp .equal caseSensitive column value)))
    | .notEqual => .ok (st.andQuery (.atom (.strCmp .notEqual caseSensitive column value)))
    | .like => .ok (st.andQuery (.atom (.strCmp .like caseSensitive column value)))
    | _ =>
        .error (rlmFormat "Operator '%1' not supported for string type"
          [operatorName operatorType])
  else
    let left : StrVal := .col column
    match operatorType with
    | .beginsWith =>
        add_substring_constraint value
          (.atom (.diStrCmp .containsAnchored (!caseSensitive) left value)) st
    | .endsWith =>
        add_substring_constraint value
          (.atom (.diStrCmp .containsAnchoredBackwards (!caseSensitive) left value)) st
    | .contains =>
        add_substring_constraint value
          (.atom (.diStrCmp .containsUnanchored (!caseSensitive) left value)) st
    | .notEqual =>
        .ok (st.notNext.andQuery (.atom (.diStrCmp .equalDI (!caseSensitive) left value)))
    | .equal => .ok (st.andQuery (.atom (.diStrCmp .equalDI (!caseSensitive) left value)))
    | .like => .error "Operator 'LIKE' not supported with diacritic-insensitive modifier."
    | _ =>
        .error (rlmFormat "Operator '%1' not supported for string type"
          [operatorName operatorType])

/-- The (StringData, Columns<String>) overload of add_string_constraint
(src lines 702-715): a constant on the left of a string column flips equality
comparisons and rejects everything else. -/
def add_string_constraint_flipped (operatorType : OperatorType)
    (predicateOptions : ComparisonOptions) (value : String) (column : ColumnReference) :
    QB := fun st =>
  match operatorType with
  | .equal => add_string_constraint operatorType predicateOptions column (.str value) st
  | .notEqual => add_string_constraint operatorType predicateOptions column (.str value) st
  | _ =>
      .error (rlmFormat
        "Operator '%1' is not supported for string type with key path on right side of operator"
        [operatorName operatorType])

/-- QueryBuilder::add_binary_constraint for a column and a BinaryData value
(src lines 744-771). -/
def add_binary_constraint (operatorType : OperatorType) (column : ColumnReference)
    (value : Option (List Nat)) : QB := fun st =>
  if column.has_links then
    .error "data properties cannot be queried over an object link."
  else
    match operatorType with
    | .beginsWith =>
        add_substring_constraint_bin value (.atom (.binCmp .beginsWith column value)) st
    | .endsWith =>
        add_substring_constraint_bin value (.atom (.binCmp .endsWith column value)) st
    | .contains =>
        add_substring_constraint_bin value (.atom (.binCmp .contains column value)) st
    | .equal => .ok (st.andQuery (.atom (.binCmp .equal column value)))
    | .notEqual => .ok (st.andQuery (.atom (.binCmp .notEqual column value)))
    | _ =>
        .error (rlmFormat "Operator '%1' not supported for binary type"
          [operatorName operatorType])

/-- QueryBuilder::add_link_constraint for a column and a link value
(src lines 792-814): an invalid target key degrades to an emptiness check on a
to-many column and to a constant expression on a to-one column. -/
def add_link_constraint (g : Group) (operatorType : OperatorType)
    (column : ColumnReference) (value : QueryMixed) : QB := fun st =>
  match value with
  | .link object_type obj_key =>
      if g.isValidObject object_type obj_key = false then
        if column.property.array then
          add_bool_constraint .object operatorType (.col column) .null st
        else if operatorType = .equal then
          .ok (st.andQuery .fls)
        else
          .ok (st.andQuery .tru)
      else
        add_bool_constraint .object operatorType (.col column) (.obj object_type obj_key) st
  | _ => .error "internal: add_link_constraint on a non-link value"

/-- The arguments reaching add_constraint / do_add_constraint: a resolved
column, a constant, or realm::null (substituted for a null constant). -/
inductive CArg where
  | column (c : ColumnReference)
  | value (v : QueryMixed)
  | nullArg

/-- is_nsnull. -/
def cargIsNull : CArg → Bool
  | .value v => v.isNull
  | .nullArg => true
  | .column _ => false

/-- value_of_type<T> for the numeric-like property types: resolve a column,
pass null through, and convert a constant with the QueryMixed getter for T.
Conversions the source leaves REALM_UNREACHABLE report an internal error. -/
def value_of_type (t : PropertyType) (a : CArg) : Except String Operand :=
  match a with
  | .column c => .ok (.col c)
  | .nullArg => .ok .null
  | .value v =>
      match t with
      | .bool =>
          match v with
          | .bool b => .ok (.bool b)
          | .int n => .ok (.bool (QueryMixed.getBool (.int n)))
          | _ => .error "internal: unreachable bool conversion"
      | .int =>
          match v with
          | .bool _ => .ok (.int v.getInt)
          | .int _ => .ok (.int v.getInt)
          | .float _ => .ok (.int v.getInt)
          | .double _ => .ok (.int v.getInt)
          | _ => .error "internal: unreachable int conversion"
      | .float =>
          match v with
          | .bool _ => .ok (.fp v.getFP)
          | .int _ => .ok (.fp v.getFP)
          | .float _ => .ok (.fp v.getFP)
          | .double _ => .ok (.fp v.getFP)
          | _ => .error "internal: unreachable float conversion"
      | .double =>
          match v with
          | .bool _ => .ok (.fp v.getFP)
          | .int _ => .ok (.fp v.getFP)
          | .float _ => .ok (.fp v.getFP)
          | .double _ => .ok (.fp v.getFP)
          | _ => .error "internal: unreachable double conversion"
      | .decimal =>
          match v with
          | .bool _ => .ok (.fp v.getDecimal)
          | .int _ => .ok (.fp v.getDecimal)
          | .float _ => .ok (.fp v.getDecimal)
          | .double _ => .ok (.fp v.getDecimal)
          | .string _ => .ok (.fp v.getDecimal)
          | .decimal _ => .ok (.fp v.getDecimal)
          | _ => .error "internal: unreachable decimal conversion"
      | .date =>
          match v with
          | .timestamp n => .ok (.timestamp n)
          | _ => .error "internal: unreachable timestamp conversion"
      | .objectId =>
          -- the specialised convert<ObjectId> (src lines 846-856); the
          -- ObjectId(string) parse is a realm-core primitive, modelled as
          -- carrying the string through
          match v with
          | .objectId s => .ok (.objId s)
          | .string s => .ok (.objId s)
          | _ => .error (rlmFormat "Cannot convert value '%1' of type '%2' to object id"
              ["foo", "bar"])
      | _ => .error "internal: value_of_type on a non-value property type"

/-- value_of_type<String>, producing a string operand. -/
def str_value_of (a : CArg) : Except String StrVal :=
  match a with
  | .column c => .ok (.col c)
  | .nullArg => .ok .null
  | .value v =>
      match v with
      | .string s => .ok (.str s)
      | _ => .error "internal: unreachable string conversion"

/-- QueryBuilder::do_add_constraint (src lines 874-912): per-property-type
dispatch. The (QueryMixed, realm::null) overload rejecting a constant-only
comparison is the first case. -/
def do_add_constraint (g : Group) (t : PropertyType) (operatorType : OperatorType)
    (predicateOptions : ComparisonOptions) (lhs rhs : CArg) : QB := fun st =>
  match lhs, rhs with
  | .value _, .nullArg =>
      .error "Predicate expressions must compare a keypath and another keypath or a constant value"
  | _, _ =>
    match t with
    | .bool => do
        add_bool_constraint t operatorType (← value_of_type t lhs) (← value_of_type t rhs) st
    | .objectId => do
        add_bool_constraint t operatorType (← value_of_type t lhs) (← value_of_type t rhs) st
    | .date => do
        add_numeric_constraint t operatorType (← value_of_type t lhs) (← value_of_type t rhs) st
    | .double => do
        add_numeric_constraint t operatorType (← value_of_type t lhs) (← value_of_type t rhs) st
    | .float => do
        add_numeric_constraint t operatorType (← value_of_type t lhs) (← value_of_type t rhs) st
    | .int => do
        add_numeric_constraint t operatorType (← value_of_type t lhs) (← value_of_type t rhs) st
    | .decimal => do
        add_numeric_constraint t operatorType (← value_of_type t lhs) (← value_of_type t rhs) st
    | .string => do
        let l ← str_value_of lhs
        let r ← str_value_of rhs
        match l, r with
        | .col c, rv => add_string_constraint operatorType predicateOptions c rv st
        | .str s, .col c => add_string_constraint_flipped operatorType predicateOptions s c st
        | _, _ => .error "internal: unreachable string operand combination"
    | .data =>
        match lhs, rhs with
        | .column c, .value v =>
            (match v with
             | .binary bytes => add_binary_constraint operatorType c (some bytes) st
             | _ => .error "internal: unreachable binary value")
        | .column c, .nullArg => add_binary_constraint operatorType c Option.none st
        | .value v, .column c =>
            -- the (QueryMixed, ColumnReference) overload (src lines 781-786)
            if operatorType = .equal ∨ operatorType = .notEqual then
              (match v with
               | .binary bytes => add_binary_constraint operatorType c (some bytes) st
               | _ => .error "internal: unreachable binary value")
            else
              .error (rlmFormat
                "Operator '%1' is not supported for binary type with key path on right side of operator"
                [operatorName operatorType])
        | .column _, .column _ => .error "Comparisons between two data properties are not supported"
        | _, _ => .error "internal: unreachable binary operand combination"
    | .object =>
        match lhs, rhs with
        | .column c, .value v => add_link_constraint g operatorType c v st
        | .column c, .nullArg => add_bool_constraint .object operatorType (.col c) .null st
        | .value v, .column c =>
            -- operand order is irrelevant for link comparisons (src lines 822-827)
            add_link_constraint g operatorType c v st
        | .column _, .column _ => .error "Comparisons between two list properties are not supported"
        | _, _ => .error "internal: unreachable link operand combination"
    | .linkingObjects =>
        match lhs, rhs with
        | .column c, .value v => add_link_constraint g operatorType c v st
        | .column c, .nullArg => add_bool_constraint .object operatorType (.col c) .null st
        | .value v, .column c => add_link_constraint g operatorType c v st
        | .column _, .column _ => .error "Comparisons between two list properties are not supported"
        | _, _ => .error "internal: unreachable link operand combination"

/-- QueryBuilder::add_constraint (src lines 923-936): null may appear only on
the right; a null right-hand constant is replaced by realm::null. -/
def add_constraint (g : Group) (t : PropertyType) (operatorType : OperatorType)
    (predicateOptions : ComparisonOptions) (lhs rhs : CArg) : QB := fun st =>
  if cargIsNull lhs then
    .error "Nil is only supported on the right side of operators"
  else if cargIsNull rhs then
    do_add_constraint g t operatorType predicateOptions lhs .nullArg st
  else
    do_add_constraint g t operatorType predicateOptions lhs rhs st

/-- The plain-column body of QueryBuilder::add_between_constraint (src lines
727-742): a 2-element array whose bounds validate yields the grouped
conjunction (column >= lower) AND (column <= upper). -/
def add_between_constraint_direct (b : QueryBuilder) (column : ColumnReference)
    (value : QueryMixed) : QB := fun st =>
  match value with
  | .array arr =>
      match arr with
      | [lo, hi] =>
          if is_valid_for_column lo column && is_valid_for_column hi column then do
            let st2 ← add_constraint b.group column.type .greaterThanOrEqual
              ComparisonOptions.none (.column column) (.value lo) st.group
            let st3 ← add_constraint b.group column.type .lessThanOrEqual
              ComparisonOptions.none (.column column) (.value hi) st2
            .ok st3.endGroup
          else
            .error (rlmFormat "array objects must be of type '%1' for BETWEEN operations"
              [string_for_property_type column.type])
      | _ => .error "BETWEEN operation requires an array with exactly two values"
  | _ => .error "BETWEEN operation requires an array with exactly two values"

/-- QueryBuilder::add_between_constraint (src lines 717-742). A column reached
through a to-many link compiles as a fresh sub-query on the link target whose
match count must be positive; the recursive call of the source receives
column_ignoring_links, which never contains a to-many link, so it lands in the
direct body. -/
def add_between_constraint (b : QueryBuilder) (column : ColumnReference)
    (value : QueryMixed) : QB := fun st =>
  if column.has_any_to_many_links then
    let link_column := column.last_link_column
    match link_column.link_target_object_schema b.schema with
    | Option.none => .error "internal: unknown link target schema"
    | some _ => do
        let subSt ← add_between_constraint_direct b column.column_ignoring_links value freshState
        .ok (st.andQuery
          (.atom (.cmp .int .greaterThan (.subqueryCount link_column subSt.result) (.int 0))))
  else
    add_between_constraint_direct b column value st

/-- Collection operation kinds (CollectionOperation::Type). -/
inductive CollOpType where
  | count
  | minimum
  | maximum
  | sum
  | average
deriving DecidableEq, Repr

/-- CollectionOperation::name_for_type. -/
def coll_name_for_type : CollOpType → String
  | .count => "@count"
  | .minimum => "@min"
  | .maximum => "@max"
  | .sum => "@sum"
  | .average => "@avg"

/-- CollectionOperation::type_for_name (src lines 439-451). -/
def coll_type_for_name (name : String) : Except String CollOpType :=
  if name = "@count" then .ok .count
  else if name = "@min" then .ok .minimum
  else if name = "@max" then .ok .maximum
  else if name = "@sum" then .ok .sum
  else if name = "@avg" then .ok .average
  else .error (rlmFormat "Unsupported collection operation '%1'" [name])

/-- A validated collection operation (class CollectionOperation): kind, the
to-many link column, and for non-Count kinds the numeric target column. -/
structure CollectionOperation where
  type : CollOpType
  link_column : ColumnReference
  column : Option ColumnReference
deriving DecidableEq, Repr

/-- The CollectionOperation constructors (src lines 371-398): name resolution
followed by the constructor preconditions. -/
def CollectionOperation.make (operationName : String) (link_column : ColumnReference)
    (column : Option ColumnReference) : Except String CollectionOperation := do
  let t ← coll_type_for_name operationName
  if !link_column.property.array then
    .error "Collection operations can only be applied to a list properties."
  else
    match t with
    | .count =>
        if column.isSome then .error "Result of @count does not have any properties."
        else .ok ⟨t, link_column, column⟩
    | _ =>
        match column with
        | some c =>
            if property_type_is_numeric c.type then .ok ⟨t, link_column, column⟩
            else .error (rlmFormat "%1 can only be applied to a numeric property."
              [coll_name_for_type t])
        | Option.none =>
            .error (rlmFormat "%1 can only be applied to a numeric property."
              [coll_name_for_type t])

/-- CollectionOperation::validate_comparison against a constant (src lines
404-419). -/
def CollectionOperation.validate_comparison_value (o : CollectionOperation)
    (value : QueryMixed) : Except String Unit :=
  match o.type with
  | .count =>
      if type_is_numeric value.getType then .ok ()
      else .error (rlmFormat "%1 can only be compared with a numeric value."
        [coll_name_for_type o.type])
  | .average =>
      if type_is_numeric value.getType then .ok ()
      else .error (rlmFormat "%1 can only be compared with a numeric value."
        [coll_name_for_type o.type])
  | _ =>
      match o.column with
      | some c =>
          if is_valid_for_column value c then .ok ()
          else .error (rlmFormat "%1 on a property of type %2 cannot be compared with '%3'"
            [coll_name_for_type o.type, string_for_property_type c.type, value.description])
      | Option.none => .error "internal: collection operation without target column"

/-- CollectionOperation::validate_comparison against a column (src lines
421-436). -/
def CollectionOperation.validate_comparison_column (o : CollectionOperation)
    (column : ColumnReference) : Except String Unit :=
  match o.type with
  | .count =>
      if property_type_is_numeric column.type then .ok ()
      else .error (rlmFormat "%1 can only be compared with a numeric value."
        [coll_name_for_type o.type])
  | _ =>
      if property_type_is_numeric column.type then .ok ()
      else
        match o.column with
        | some c =>
            .error (rlmFormat
              "%1 on a property of type '%2' cannot be compared with property of type '%3'"
              [coll_name_for_type o.type, string_for_property_type c.type,
               string_for_property_type column.type])
        | Option.none => .error "internal: collection operation without target column"

/-- Arguments of add_collection_operation_constraint: the collection operation
itself, a constant, or a plain column. -/
inductive CollArg where
  | cop (o : CollectionOperation)
  | val (v : QueryMixed)
  | colRef (c : ColumnReference)

/-- value_of_type_with_collection_operation: a collection operation resolves to
a link count or a link aggregate; other arguments convert as value_of_type of
the requested numeric type. -/
def coll_value_of (requested : PropertyType) (k : CollOpType) (a : CollArg) :
    Except String Operand :=
  match a with
  | .cop o =>
      (match k with
       | .count => .ok (.collCount o.link_column)
       | .minimum =>
           (match o.column with
            | some c => .ok (.collAgg .minimum o.link_column c)
            | Option.none => .error "internal: collection operation without target column")
       | .maximum =>
           (match o.column with
            | some c => .ok (.collAgg .maximum o.link_column c)
            | Option.none => .error "internal: collection operation without target column")
       | .sum =>
           (match o.column with
            | some c => .ok (.collAgg .sum o.link_column c)
            | Option.none => .error "internal: collection operation without target column")
       | .average =>
           (match o.column with
            | some c => .ok (.collAgg .average o.link_column c)
            | Option.none => .error "internal: collection operation without target column"))
  | .val v => value_of_type requested (.value v)
  | .colRef c => .ok (.col c)

/-- The numeric-type dispatch of the templated
add_collection_operation_constraint (src lines 1053-1072); the source asserts
only numeric target types reach it. -/
def add_collection_operation_constraint_typed (k : CollOpType) (propertyType : PropertyType)
    (operatorType : OperatorType) (a1 a2 : CollArg) : QB := fun st =>
  match propertyType with
  | .int => do
      add_numeric_constraint .int operatorType
        (← coll_value_of .int k a1) (← coll_value_of .int k a2) st
  | .float => do
      add_numeric_constraint .float operatorType
        (← coll_value_of .float k a1) (← coll_value_of .float k a2) st
  | .double => do
      add_numeric_constraint .double operatorType
        (← coll_value_of .double k a1) (← coll_value_of .double k a2) st
  | .decimal => do
      add_numeric_constraint .decimal operatorType
        (← coll_value_of .decimal k a1) (← coll_value_of .decimal k a2) st
  | _ => .error "internal: non-numeric collection aggregate target"

/-- QueryBuilder::add_collection_operation_constraint (src lines 1074-1098). -/
def add_collection_operation_constraint (operatorType : OperatorType)
    (collectionOperation : CollectionOperation) (a1 a2 : CollArg) : QB := fun st =>
  match collectionOperation.type with
  | .count => do
      add_numeric_constraint .int operatorType
        (← coll_value_of .int .count a1) (← coll_value_of .int .count a2) st
  | .minimum =>
      add_collection_operation_constraint_typed .minimum
        (match collectionOperation.column with | some c => c.type | Option.none => .int)
        operatorType a1 a2 st
  | .maximum =>
      add_collection_operation_constraint_typed .maximum
        (match collectionOperation.column with | some c => c.type | Option.none => .int)
        operatorType a1 a2 st
  | .sum =>
      add_collection_operation_constraint_typed .sum
        (match collectionOperation.column with | some c => c.type | Option.none => .int)
        operatorType a1 a2 st
  | .average =>
      add_collection_operation_constraint_typed .average
        (match collectionOperation.column with | some c => c.type | Option.none => .int)
        operatorType a1 a2 st

/-- QueryBuilder::collection_operation_from_key_path (src lines 1123-1137). -/
def collection_operation_from_key_path (b : QueryBuilder) (desc : RLMObjectSchema)
    (keyPath : String) : Except String CollectionOperation := do
  let parts ← get_collection_operation_name_from_key_path keyPath
  let linkColumn ← column_reference_from_key_path b desc parts.leadingKeyPath true
  let column ←
    match parts.trailingKey with
    | Option.none => pure (Option.none : Option ColumnReference)
    | some t =>
        if t.toList.any (fun c => c = '.') then
          Except.error "Right side of collection operator may only have a single level key"
        else do
          let c ← column_reference_from_key_path b desc
            (rlmFormat "%1.%2" [parts.leadingKeyPath, t]) true
          pure (some c)
  CollectionOperation.make parts.operationName linkColumn column

/-- validate_property_value (src lines 993-1011). -/
def validate_property_value (column : ColumnReference) (value : QueryMixed) (err : String)
    (objectSchema : RLMObjectSchema) (keyPath : String) : Except String Unit :=
  let prop := column.property
  let second : Except String Unit :=
    if is_valid_for_column value column then .ok ()
    else .error (rlmFormat err
      [string_for_property_type prop.type, keyPath, objectSchema.className, value.description])
  if prop.type = .linkingObjects then
    if !value.isNull
        && (match value with
            | .link t _ => t = prop.objectClassName
            | _ => false) then
      second
    else
      .error (rlmFormat err
        [prop.objectClassName, keyPath, objectSchema.className, value.description])
  else second

/-- QueryBuilder::apply_collection_operator_expression (src lines 1139-1150).
`leftIsKeyPath` is the source's test whether the predicate's left expression is
the key path. -/
def apply_collection_operator_expression (b : QueryBuilder) (desc : RLMObjectSchema)
    (keyPath : String) (value : QueryMixed) (leftIsKeyPath : Bool)
    (operatorType : OperatorType) : QB := fun st => do
  let operation ← collection_operation_from_key_path b desc keyPath
  let _ ← operation.validate_comparison_value value
  if leftIsKeyPath then
    add_collection_operation_constraint operatorType operation (.cop operation) (.val value) st
  else
    add_collection_operation_constraint operatorType operation (.val value) (.cop operation) st

/-- The loop inside the IN handling of apply_value_expression (src lines
1174-1194): OR between consecutive items, per-item validation and equality
constraint; an empty loop leaves the first-flag set and a constant-false
expression substitutes. -/
def in_items (b : QueryBuilder) (desc : RLMObjectSchema) (keyPath : String)
    (opts : ComparisonOptions) (column : ColumnReference) :
    List QueryMixed → Bool → QB
  | [], first => fun st => if first then .ok (st.andQuery .fls) else .ok st
  | item :: rest, first => fun st => do
      let st1 := if first then st else st.orNext
      let _ ← validate_property_value column item
        "Expected object of type '%1' in IN clause for property '%3.%2', but received: %4"
        desc keyPath
      let st2 ← add_constraint b.group column.type .equal opts (.column column) (.value item) st1
      in_items b desc keyPath opts column rest false st2

/-- QueryBuilder::apply_value_expression (src lines 1152-1205). The Predicate
argument of the source is consumed only through modifier(), operator_type(),
options() and left().type(); those are the scalar parameters here. -/
def apply_value_expression (b : QueryBuilder) (desc : RLMObjectSchema) (keyPath : String)
    (value : QueryMixed) (leftIsKeyPath : Bool) (modifier : Modifier)
    (operatorType : OperatorType) (opts : ComparisonOptions) : QB := fun st =>
  if key_path_contains_collection_operator keyPath then
    apply_collection_operator_expression b desc keyPath value leftIsKeyPath operatorType st
  else do
    let isAny := modifier = Modifier.any
    let column ← column_reference_from_key_path b desc keyPath isAny
    if operatorType = .between then
      add_between_constraint b column value st
    else if operatorType = .isIn then
      match value with
      | .array items => do
          let st2 ← in_items b desc keyPath opts column items true st.group
          .ok st2.endGroup
      | _ => .error "IN clause requires an array of items"
    else do
      let _ ← validate_property_value column value
        "Expected object of type '%1' for property '%3.%2', but received: %4" desc keyPath
      if leftIsKeyPath then
        add_constraint b.group column.type operatorType opts (.column column) (.value value) st
      else
        add_constraint b.group column.type operatorType opts (.value value) (.column column) st

/-- QueryBuilder::apply_column_expression (src lines 1207-1244): aggregate
operations on at most one side; two plain columns must agree exactly on their
property type. -/
def apply_column_expression (b : QueryBuilder) (desc : RLMObjectSchema)
    (leftKeyPath rightKeyPath : String) (operatorType : OperatorType)
    (opts : ComparisonOptions) : QB := fun st =>
  let leftHasOp := key_path_contains_collection_operator leftKeyPath
  let rightHasOp := key_path_contains_collection_operator rightKeyPath
  if leftHasOp && rightHasOp then
    .error "Key paths including aggregate operations cannot be compared with other aggregate operations."
  else if leftHasOp then do
    let left ← collection_operation_from_key_path b desc leftKeyPath
    let right ← column_reference_from_key_path b desc rightKeyPath false
    let _ ← left.validate_comparison_column right
    add_collection_operation_constraint operatorType left (.cop left) (.colRef right) st
  else if rightHasOp then do
    let left ← column_reference_from_key_path b desc leftKeyPath false
    let right ← collection_operation_from_key_path b desc rightKeyPath
    let _ ← right.validate_comparison_column left
    add_collection_operation_constraint operatorType right (.colRef left) (.cop right) st
  else do
    let left ← column_reference_from_key_path b desc leftKeyPath false
    let right ← column_reference_from_key_path b desc rightKeyPath false
    if left.type = right.type then
      add_constraint b.group left.type operatorType opts (.column left) (.column right) st
    else
      .error (rlmFormat "Comparison between '%1' and '%2' properties is not supported"
        [string_for_property_type left.type, string_for_property_type right.type])

mutual
/-- QueryBuilder::apply_predicate (src lines 1286-1406): the recursive predicate
compiler. Empty AND compounds emit constant-true, empty OR compounds emit
constant-false; NOT marks the query and compiles its single child; comparisons
check the modifier, normalize BETWEEN/IN shapes, and dispatch on the operand
expression kinds. -/
def apply_predicate (b : QueryBuilder) (objectSchema : RLMObjectSchema) :
    Predicate → QB
  | .compound ct subs => fun st =>
      match ct with
      | .and =>
          match subs with
          | [] => .ok (st.andQuery .tru)
          | p :: rest => do
              let st1 ← apply_predicate_conjuncts b objectSchema (p :: rest) st.group
              .ok st1.endGroup
      | .or =>
          match subs with
          | [] => .ok (st.andQuery .fls)
          | p :: rest => do
              let st1 ← apply_predicate b objectSchema p st.group
              let st2 ← apply_predicate_disjuncts b objectSchema rest st1
              .ok st2.endGroup
      | .not =>
          match subs with
          | p :: _ => apply_predicate b objectSchema p st.notNext
          | [] => .error "internal: NOT compound without a subpredicate"
  | .comparison left right modifier op opts => fun st =>
      if modifier = Modifier.all then
        .error "The ALL modifier is not supported"
      else if modifier = Modifier.any
          ∧ ¬(left.etype = .keyPath ∧ right.etype = .constantValue) then
        .error "Predicate with ANY modifier must compare a KeyPath with RLMArray with a value"
      else if op = .between ∨ op = .isIn then
        if left.etype = .keyPath
            ∧ (right.etype = .aggregate ∨ right.etype = .constantValue) then
          apply_value_expression b objectSchema left.keyPathOf right.valueOf true modifier op
            opts st
        else if op = .isIn ∧ left.etype = .constantValue ∧ right.etype = .keyPath then
          -- "%@ IN key.path" rewrites into "ANY key.path == %@"
          apply_value_expression b objectSchema right.keyPathOf left.valueOf true Modifier.any
            .equal ComparisonOptions.none st
        else if op = .between then
          .error "Predicate with BETWEEN operator must compare a KeyPath with an aggregate with two values"
        else
          .error "Predicate with IN operator must compare a KeyPath with an aggregate"
      else if left.etype = .keyPath ∧ right.etype = .keyPath then
        apply_column_expression b objectSchema left.keyPathOf right.keyPathOf op opts st
      else if left.etype = .keyPath ∧ right.etype = .constantValue then
        apply_value_expression b objectSchema left.keyPathOf right.valueOf true modifier op
          opts st
      else if left.etype = .constantValue ∧ right.etype = .keyPath then
        apply_value_expression b objectSchema right.keyPathOf left.valueOf false modifier op
          opts st
      else if left.etype = .function then
        apply_function_expression b objectSchema left op right st
      else if left.etype = .subquery then
        .error "SUBQUERY is only supported when immediately followed by .@count"
      else
        .error "Predicate expressions must compare a keypath and another keypath or a constant value"
  | .tru => fun st => .ok (st.andQuery .tru)
  | .fls => fun st => .ok (st.andQuery .fls)
  | .base => fun _ => .error "Only support compound, comparison, and constant predicates"
termination_by p => (sizeOf p, 0)

/-- The conjunctive loop of the AND compound case. -/
def apply_predicate_conjuncts (b : QueryBuilder) (objectSchema : RLMObjectSchema) :
    List Predicate → QB
  | [] => fun st => .ok st
  | p :: rest => fun st => do
      let st1 ← apply_predicate b objectSchema p st
      apply_predicate_conjuncts b objectSchema rest st1
termination_by l => (sizeOf l, 0)

/-- The disjunctive loop of the OR compound case: every predicate after the
first is preceded by Query::Or(). -/
def apply_predicate_disjuncts (b : QueryBuilder) (objectSchema : RLMObjectSchema) :
    List Predicate → QB
  | [] => fun st => .ok st
  | p :: rest => fun st => do
      let st1 ← apply_predicate b objectSchema p st.orNext
      apply_predicate_disjuncts b objectSchema rest st1
termination_by l => (sizeOf l, 0)

/-- QueryBuilder::apply_function_expression (src lines 1279-1284): the operand
must be a subquery expression. -/
def apply_function_expression (b : QueryBuilder) (objectSchema : RLMObjectSchema)
    (functionExpression : PredicateExpression) (operatorType : OperatorType)
    (right : PredicateExpression) : QB := fun st =>
  match functionExpression with
  | .function operand functionName argument =>
      if operand.etype = .subquery then
        apply_function_subquery_expression b objectSchema operand functionName argument
          operatorType right st
      else
        .error (rlmFormat "The '%1' function is not supported." [functionName])
  | _ => .error "internal: apply_function_expression on a non-function expression"
termination_by (sizeOf functionExpression, 2)

/-- QueryBuilder::apply_function_subquery_expression (src lines 1268-1277): only
valueForKeyPath: applied to @count is accepted. -/
def apply_function_subquery_expression (b : QueryBuilder) (objectSchema : RLMObjectSchema)
    (operand : PredicateExpression) (functionName : String)
    (argument : PredicateExpression) (operatorType : OperatorType)
    (right : PredicateExpression) : QB := fun st =>
  if functionName ≠ "valueForKeyPath:" then
    .error (rlmFormat "The '%1' function is not supported on the result of a SUBQUERY."
      [functionName])
  else if argument.keyPathOf ≠ "@count" then
    .error "SUBQUERY is only supported when immediately followed by .@count that is compared with a constant number."
  else
    apply_subquery_count_expression b objectSchema operand operatorType right st
termination_by (sizeOf operand, 1)

/-- QueryBuilder::apply_subquery_count_expression (src lines 1246-1266): the
right-hand side must be an integer constant; the nested predicate compiles on a
fresh query against the link target's schema, is validated, and its match count
is compared with the constant. -/
def apply_subquery_count_expression (b : QueryBuilder) (objectSchema : RLMObjectSchema)
    (subqueryExpression : PredicateExpression) (operatorType : OperatorType)
    (right : PredicateExpression) : QB := fun st =>
  match right with
  | .constantValue (.int value) =>
      match subqueryExpression with
      | .subquery kp sub => do
          let collectionColumn ← column_reference_from_key_path b objectSchema kp true
          match b.schema.lookup collectionColumn.property.objectClassName with
          | Option.none => .error "internal: unknown link target schema"
          | some collectionMemberObjectSchema => do
              let subSt ← apply_predicate b collectionMemberObjectSchema sub freshState
              let msg := queryValidate subSt
              if msg = "" then
                add_numeric_constraint .int operatorType
                  (.subqueryCount collectionColumn subSt.result) (.int value) st
              else
                .error (rlmFormat "%1" [msg])
      | _ => .error "internal: subquery count on a non-subquery expression"
  | _ => .error "SUBQUERY(...).@count is only supported when compared with a constant integer."
termination_by (sizeOf subqueryExpression, 0)
end

/-- RLMPredicateToQuery (src lines 1409-1417): compile on a fresh query over the
object's table, then surface the storage engine's validation verbatim. -/
def RLMPredicateToQuery (predicate : Predicate) (objectSchema : RLMObjectSchema)
    (schema : RLMSchema) (group : Group) : Except String (Option QExpr) := do
  let st ← apply_predicate ⟨group, schema⟩ objectSchema predicate freshState
  let msg := queryValidate st
  if msg = "" then .ok st.result
  else .error (rlmFormat "%1" [msg])

/-!
A small sample schema used by concrete instantiations of the theorems below:
`Person { name: String, age: Int, friends: List<Person> }` (the schema of the
end-to-end scenarios of spec section 8).
-/

/-- The Int property `age` of the sample schema. -/
def ageProp : RLMProperty := { name := "age", type := .int }

/-- The String property `name` of the sample schema. -/
def nameProp : RLMProperty := { name := "name", type := .string }

/-- The to-many link property `friends` of the sample schema. -/
def friendsProp : RLMProperty :=
  { name := "friends", type := .object, array := true, objectClassName := "Person" }

/-- The Person object schema. -/
def personSchema : RLMObjectSchema := ⟨"Person", [nameProp, ageProp, friendsProp]⟩

/-- The sample schema registry. -/
def sampleSchema : RLMSchema := ⟨[personSchema]⟩

/-- A Bool property, for the value-validation claims. -/
def boolProp : RLMProperty := { name := "alive", type := .bool }

/-- A sample group in which no object key is valid (all rows deleted / never
inserted). -/
def sampleGroup : Group := ⟨fun _ _ => false⟩

/-- A builder context over the sample group and schema. -/
def sampleBuilder : QueryBuilder := ⟨sampleGroup, sampleSchema⟩

example : apply_predicate sampleBuilder personSchema .tru freshState =
    .ok (freshState.andQuery .tru) := by
  simp [apply_predicate]

example : apply_predicate sampleBuilder personSchema (.compound .and []) freshState =
    .ok (freshState.andQuery .tru) := by
  simp [apply_predicate]

example :
    apply_value_expression sampleBuilder personSchema "age" (.array [.int 1, .int 2]) true
      .direct .isIn ComparisonOptions.none freshState =
    .ok ⟨[], ⟨some (.bor (.atom (.cmp .int .equal (.col ⟨[], ageProp⟩) (.int 1)))
                         (.atom (.cmp .int .equal (.col ⟨[], ageProp⟩) (.int 2)))), false, 0⟩⟩ := rfl

example :
    apply_predicate sampleBuilder personSchema
      (.comparison (.function (.subquery "friends" .tru) "valueForKeyPath:" (.keyPath "@count"))
        (.constantValue (.int 0)) .direct .greaterThan ComparisonOptions.none)
      freshState =
    .ok (freshState.andQuery (.atom (.cmp .int .greaterThan
        (.subqueryCount ⟨[], friendsProp⟩ (some .tru)) (.int 0)))) := by
  simp only [apply_predicate, apply_function_expression, apply_function_subquery_expression,
    apply_subquery_count_expression]
  rfl

/-!
Reduction lemmas for the Except monad operations used by the do-notation of the
builder functions.
-/

@[simp]
theorem except_ok_bind {α β : Type} (a : α) (f : α → Except String β) :
    (Except.ok a : Except String α) >>= f = f a := rfl

@[simp]
theorem except_error_bind {α β : Type} (e : String) (f : α → Except String β) :
    (Except.error e : Except String α) >>= f = Except.error e := rfl

@[simp]
theorem except_pure_eq_ok {α : Type} (a : α) :
    (pure a : Except String α) = Except.ok a := rfl

/-!
Query-state algebra: how group / and_query / Or / end_group compose, for the
shapes the constraint builder produces.
-/

theorem endGroup_group_one (st : QueryState) (e : QExpr) :
    (st.group.andQuery e).endGroup = st.andQuery e := by
  cases st with
  | mk outer cur =>
      simp [QueryState.group, QueryState.andQuery, QueryState.endGroup, applyNots]

theorem endGroup_group_two (st : QueryState) (e1 e2 : QExpr) :
    ((st.group.andQuery e1).andQuery e2).endGroup = st.andQuery (.band e1 e2) := by
  cases st with
  | mk outer cur =>
      simp [QueryState.group, QueryState.andQuery, QueryState.endGroup, applyNots]

theorem endGroup_group_or3 (st : QueryState) (e1 e2 e3 : QExpr) :
    ((((st.group.andQuery e1).orNext.andQuery e2).orNext.andQuery e3)).endGroup =
      st.andQuery (.bor (.bor e1 e2) e3) := by
  cases st with
  | mk outer cur =>
      simp [QueryState.group, QueryState.andQuery, QueryState.endGroup, QueryState.orNext,
        applyNots]

/-- C1: for every string column, every substring operator (beginsWith, endsWith,
contains) under diacritic-sensitive options, and a right-hand constant that is
the empty string or null, the compiled constraint is the constant-false
expression, which evaluates to false on every row regardless of column content. -/
theorem claim_C1_diacritic_sensitive_substring_empty_null_false
    (op : OperatorType) (opts : ComparisonOptions) (column : ColumnReference)
    (value : StrVal) (st : QueryState)
    (hdia : opts.diacriticInsensitive = false)
    (hop : op = .beginsWith ∨ op = .endsWith ∨ op = .contains)
    (hval : value = .null ∨ value = .str "") :
    add_string_constraint op opts column value st = .ok (st.andQuery .fls) ∧
    (∀ ρ : QAtom → Bool, QExpr.eval ρ .fls = false) := by
  refine ⟨?_, fun ρ => rfl⟩
  rcases hop with h | h | h <;> subst h <;>
    rcases hval with h | h <;> subst h <;>
      simp [add_string_constraint, add_substring_constraint, hdia]

theorem claim_C1_witness :
    ComparisonOptions.none.diacriticInsensitive = false ∧
    add_string_constraint .contains ComparisonOptions.none ⟨[], nameProp⟩ (.str "") freshState =
      .ok (freshState.andQuery .fls) := by
  exact ⟨rfl,
    (claim_C1_diacritic_sensitive_substring_empty_null_false .contains ComparisonOptions.none
      ⟨[], nameProp⟩ (.str "") freshState rfl (Or.inr (Or.inr rfl)) (Or.inr rfl)).1⟩

/-- C2: for every schema, compiling a zero-child AND compound produces exactly
the query transformation of compiling the True predicate, and a zero-child OR
compound exactly that of the False predicate — both at the level of
apply_predicate on any intermediate state and at the level of the top-level
RLMPredicateToQuery entry point. -/
theorem claim_C2_empty_compound_equiv_constants
    (b : QueryBuilder) (os : RLMObjectSchema) (st : QueryState) :
    apply_predicate b os (.compound .and []) st = apply_predicate b os .tru st ∧
    apply_predicate b os (.compound .or []) st = apply_predicate b os .fls st ∧
    RLMPredicateToQuery (.compound .and []) os b.schema b.group =
      RLMPredicateToQuery .tru os b.schema b.group ∧
    RLMPredicateToQuery (.compound .or []) os b.schema b.group =
      RLMPredicateToQuery .fls os b.schema b.group := by
  refine ⟨?_, ?_, ?_, ?_⟩ <;> simp [apply_predicate, RLMPredicateToQuery]

/-- C6: comparing a link column with == or != against a target object whose row
key is not valid in the target table compiles to an emptiness check
(column compared with null) when the column is a to-many relationship, and to
the constant-false (for ==) or constant-true (for !=) expression when it is
to-one. -/
theorem claim_C6_invalid_link_target
    (g : Group) (column : ColumnReference) (t : String) (key : Int)
    (op : OperatorType) (st : QueryState)
    (hinv : g.isValidObject t key = false)
    (hop : op = .equal ∨ op = .notEqual) :
    (column.property.array = true →
      add_link_constraint g op column (.link t key) st =
        .ok (st.andQuery (.atom (.cmp .object op (.col column) .null)))) ∧
    (column.property.array = false →
      add_link_constraint g op column (.link t key) st =
        .ok (st.andQuery (if op = .equal then .fls else .tru))) := by
  constructor
  · intro harr
    rcases hop with h | h <;> subst h <;>
      simp [add_link_constraint, hinv, harr, add_bool_constraint]
  · intro harr
    rcases hop with h | h <;> subst h <;>
      simp [add_link_constraint, hinv, harr]

theorem claim_C6_witness :
    sampleGroup.isValidObject "Person" 7 = false ∧
    (add_link_constraint sampleGroup .equal ⟨[], friendsProp⟩ (.link "Person" 7) freshState =
      .ok (freshState.andQuery (.atom (.cmp .object .equal (.col ⟨[], friendsProp⟩) .null)))) := by
  exact ⟨rfl,
    (claim_C6_invalid_link_target sampleGroup ⟨[], friendsProp⟩ "Person" 7 .equal freshState
      rfl (Or.inl rfl)).1 rfl⟩

/-- C8: compiling a comparison with the All modifier always fails, and with the
Any modifier fails unless the left operand is exactly a KeyPath expression and
the right operand is exactly a ConstantValue expression. -/
theorem claim_C8_modifier_restrictions
    (b : QueryBuilder) (os : RLMObjectSchema) (l r : PredicateExpression)
    (op : OperatorType) (opts : ComparisonOptions) (st : QueryState) :
    (apply_predicate b os (.comparison l r .all op opts) st =
      .error "The ALL modifier is not supported") ∧
    (¬(l.etype = .keyPath ∧ r.etype = .constantValue) →
      apply_predicate b os (.comparison l r .any op opts) st =
        .error "Predicate with ANY modifier must compare a KeyPath with RLMArray with a value") := by
  constructor
  · simp [apply_predicate]
  · intro h
    simp [apply_predicate, h]

theorem claim_C8_witness :
    ¬((PredicateExpression.constantValue (.int 1)).etype = .keyPath ∧
        (PredicateExpression.constantValue (.int 2)).etype = .constantValue) ∧
    apply_predicate sampleBuilder personSchema
      (.comparison (.constantValue (.int 1)) (.constantValue (.int 2)) .any .equal
        ComparisonOptions.none) freshState =
      .error "Predicate with ANY modifier must compare a KeyPath with RLMArray with a value" := by
  refine ⟨by simp [PredicateExpression.etype], ?_⟩
  exact (claim_C8_modifier_restrictions sampleBuilder personSchema (.constantValue (.int 1))
    (.constantValue (.int 2)) .equal ComparisonOptions.none freshState).2
    (by simp [PredicateExpression.etype])

/-- C10: for a boolean storage column, an integer constant passes value
validation exactly when it is 0 or 1, boolean constants always pass, a non-0/1
integer makes validate_property_value fail with an error, and the QueryMixed
bool getter coerces an integer by comparison with 0. -/
theorem claim_C10_bool_valid_ints
    (column : ColumnReference) (desc : RLMObjectSchema) (kp : String)
    (hbool : column.property.type = .bool) (harr : column.property.array = false) :
    (∀ n : Int, is_valid_for_column (.int n) column = true ↔ (n = 0 ∨ n = 1)) ∧
    (∀ bv : Bool, is_valid_for_column (.bool bv) column = true) ∧
    (∀ n : Int, n ≠ 0 → n ≠ 1 → ∃ msg,
      validate_property_value column (.int n)
        "Expected object of type '%1' for property '%3.%2', but received: %4" desc kp =
          .error msg) ∧
    (∀ n : Int, QueryMixed.getBool (.int n) = (n != 0)) := by
  have hvalid : ∀ n : Int, is_valid_for_column (.int n) column = true ↔ (n = 0 ∨ n = 1) := by
    intro n
    simp [is_valid_for_column, validate_value, ColumnReference.colKey, colTypeOf, hbool, harr,
      validate_scalar, QueryMixed.isNull, QueryMixed.getType, QueryMixed.getInt]
  refine ⟨hvalid, ?_, ?_, fun n => rfl⟩
  · intro bv
    simp [is_valid_for_column, validate_value, ColumnReference.colKey, colTypeOf, hbool, harr,
      validate_scalar, QueryMixed.isNull, QueryMixed.getType]
  · intro n h0 h1
    have hfalse : is_valid_for_column (.int n) column = false := by
      rcases Bool.eq_false_or_eq_true (is_valid_for_column (.int n) column) with h | h
      · rcases (hvalid n).mp h with h2 | h2 <;> simp [h2] at h0 h1
      · exact h
    exact ⟨rlmFormat "Expected object of type '%1' for property '%3.%2', but received: %4"
      [string_for_property_type column.property.type, kp, desc.className,
        (QueryMixed.int n).description],
      by simp [validate_property_value, hbool, hfalse]⟩

theorem claim_C10_witness :
    (⟨[], boolProp⟩ : ColumnReference).property.type = .bool ∧
    (is_valid_for_column (.int 1) ⟨[], boolProp⟩ = true ↔ ((1 : Int) = 0 ∨ (1 : Int) = 1)) ∧
    is_valid_for_column (.int 2) ⟨[], boolProp⟩ = false := by
  refine ⟨rfl, (claim_C10_bool_valid_ints ⟨[], boolProp⟩ personSchema "ok" (by rfl) (by rfl)).1 1,
    by decide⟩

/-- C5: a key path that traverses a to-many property resolves outside an
aggregate context with the collection-requires-aggregate error but resolves
successfully in an aggregate context (in particular when wrapped as
`path.@count`); conversely a key path with no to-many property fails to resolve
in an aggregate context with the aggregate-on-non-collection error. -/
theorem claim_C5_to_many_aggregate_context
    (b : QueryBuilder) (os : RLMObjectSchema) (kp : String) (k : KeyPath)
    (hres : key_path_from_string b.schema os kp = .ok k) :
    (k.containsToManyRelationship = true →
      column_reference_from_key_path b os kp false =
        .error "Key paths that include an array property must use aggregate operations" ∧
      column_reference_from_key_path b os kp true = .ok ⟨k.links, k.property⟩) ∧
    (k.containsToManyRelationship = false →
      column_reference_from_key_path b os kp true =
        .error "Aggregate operations can only be used on key paths that include an array property" ∧
      column_reference_from_key_path b os kp false = .ok ⟨k.links, k.property⟩) ∧
    (∀ kp2, get_collection_operation_name_from_key_path kp2 = .ok ⟨"@count", kp, Option.none⟩ →
      k.containsToManyRelationship = true →
      k.property.array = true →
      collection_operation_from_key_path b os kp2 =
        .ok ⟨.count, ⟨k.links, k.property⟩, Option.none⟩) := by
  refine ⟨?_, ?_, ?_⟩
  · intro h
    constructor <;> simp [column_reference_from_key_path, hres, h]
  · intro h
    constructor <;> simp [column_reference_from_key_path, hres, h]
  · intro kp2 hparse hmany harr
    simp [collection_operation_from_key_path, hparse, column_reference_from_key_path, hres,
      hmany, CollectionOperation.make, coll_type_for_name, harr]

theorem claim_C5_witness :
    key_path_from_string sampleSchema personSchema "friends.name" =
      .ok ⟨[friendsProp], nameProp, true⟩ ∧
    column_reference_from_key_path sampleBuilder personSchema "friends.name" false =
      .error "Key paths that include an array property must use aggregate operations" ∧
    key_path_from_string sampleSchema personSchema "friends" = .ok ⟨[], friendsProp, true⟩ ∧
    collection_operation_from_key_path sampleBuilder personSchema "friends.@count" =
      .ok ⟨.count, ⟨[], friendsProp⟩, Option.none⟩ := by
  refine ⟨rfl, ?_, rfl, ?_⟩
  · exact ((claim_C5_to_many_aggregate_context sampleBuilder personSchema "friends.name"
      ⟨[friendsProp], nameProp, true⟩ rfl).1 rfl).1
  · exact (claim_C5_to_many_aggregate_context sampleBuilder personSchema "friends"
      ⟨[], friendsProp, true⟩ rfl).2.2 "friends.@count" rfl rfl rfl

/-- C9: comparing two key paths that both resolve to plain column references
(no collection operator on either side) compiles only when the two property
types are exactly equal; when they differ, compilation fails with the
type-mismatch message that names both property types. -/
theorem claim_C9_column_column_exact_type
    (b : QueryBuilder) (desc : RLMObjectSchema) (lkp rkp : String)
    (op : OperatorType) (opts : ComparisonOptions) (st : QueryState)
    (lcol rcol : ColumnReference)
    (hl : key_path_contains_collection_operator lkp = false)
    (hr : key_path_contains_collection_operator rkp = false)
    (hlc : column_reference_from_key_path b desc lkp false = .ok lcol)
    (hrc : column_reference_from_key_path b desc rkp false = .ok rcol) :
    (lcol.type ≠ rcol.type →
      apply_column_expression b desc lkp rkp op opts st =
        .error (rlmFormat "Comparison between '%1' and '%2' properties is not supported"
          [string_for_property_type lcol.type, string_for_property_type rcol.type])) ∧
    (∀ st2, apply_column_expression b desc lkp rkp op opts st = .ok st2 →
      lcol.type = rcol.type) := by
  constructor
  · intro hne
    simp [apply_column_expression, hl, hr, hlc, hrc, hne]
  · intro st2 hok
    by_cases h : lcol.type = rcol.type
    · exact h
    · simp [apply_column_expression, hl, hr, hlc, hrc, h] at hok

theorem claim_C9_witness :
    column_reference_from_key_path sampleBuilder personSchema "age" false =
      .ok ⟨[], ageProp⟩ ∧
    ((⟨[], ageProp⟩ : ColumnReference).type ≠ (⟨[], nameProp⟩ : ColumnReference).type) ∧
    apply_column_expression sampleBuilder personSchema "age" "name" .equal
      ComparisonOptions.none freshState =
      .error (rlmFormat "Comparison between '%1' and '%2' properties is not supported"
        [string_for_property_type PropertyType.int, string_for_property_type PropertyType.string]) ∧
    rlmFormat "Comparison between '%1' and '%2' properties is not supported"
        [string_for_property_type PropertyType.int, string_for_property_type PropertyType.string] =
      "Comparison between 'int' and 'string' properties is not supported" := by
  refine ⟨rfl, by decide, ?_, rfl⟩
  exact (claim_C9_column_column_exact_type sampleBuilder personSchema "age" "name" .equal
    ComparisonOptions.none freshState ⟨[], ageProp⟩ ⟨[], nameProp⟩ rfl rfl rfl rfl).1 (by decide)

/-- C7: a subquery comparison compiles successfully only when the function
expression is valueForKeyPath: on a subquery operand, the function argument is
the @count key path, and the right-hand side is a constant whose value is an
integer. -/
theorem claim_C7_subquery_count_only
    (b : QueryBuilder) (os : RLMObjectSchema) (fe : PredicateExpression)
    (op : OperatorType) (right : PredicateExpression) (st st2 : QueryState)
    (hok : apply_function_expression b os fe op right st = .ok st2) :
    ∃ operand functionName argument kp sub n,
      fe = .function operand functionName argument ∧
      operand = .subquery kp sub ∧
      functionName = "valueForKeyPath:" ∧
      argument.keyPathOf = "@count" ∧
      right = .constantValue (.int n) := by
  cases fe with
  | function operand functionName argument =>
      by_cases hsub : operand.etype = .subquery
      · cases operand with
        | subquery kp sub =>
            by_cases hname : functionName = "valueForKeyPath:"
            · by_cases hcnt : argument.keyPathOf = "@count"
              · subst hname
                simp [apply_function_expression, apply_function_subquery_expression,
                  PredicateExpression.etype, hcnt, apply_subquery_count_expression] at hok
                cases right with
                | constantValue v =>
                    cases v <;>
                      simp [apply_subquery_count_expression] at hok
                    rename_i n
                    exact ⟨.subquery kp sub, _, argument, kp, sub, n, rfl, rfl, rfl, hcnt, rfl⟩
                | _ => simp [apply_subquery_count_expression] at hok
              · simp [apply_function_expression, apply_function_subquery_expression,
                  PredicateExpression.etype, hname, hcnt] at hok
            · simp [apply_function_expression, apply_function_subquery_expression,
                PredicateExpression.etype, hname] at hok
        | constantValue v => simp [PredicateExpression.etype] at hsub
        | aggregate v => simp [PredicateExpression.etype] at hsub
        | keyPath k => simp [PredicateExpression.etype] at hsub
        | function o n a => simp [PredicateExpression.etype] at hsub
        | other t => cases t <;> simp [PredicateExpression.etype, OtherExprType.toExprType] at hsub
      · simp [apply_function_expression, hsub] at hok
  | constantValue v => simp [apply_function_expression] at hok
  | aggregate v => simp [apply_function_expression] at hok
  | keyPath k => simp [apply_function_expression] at hok
  | subquery k p => simp [apply_function_expression] at hok
  | other t => simp [apply_function_expression] at hok

theorem claim_C7_witness :
    (apply_function_expression sampleBuilder personSchema
        (.function (.subquery "friends" .tru) "valueForKeyPath:" (.keyPath "@count"))
        .greaterThan (.constantValue (.int 0)) freshState =
      .ok (freshState.andQuery (.atom (.cmp .int .greaterThan
        (.subqueryCount ⟨[], friendsProp⟩ (some .tru)) (.int 0))))) ∧
    (∃ operand functionName argument kp sub n,
      (PredicateExpression.function (.subquery "friends" .tru) "valueForKeyPath:"
          (.keyPath "@count")) = .function operand functionName argument ∧
      operand = .subquery kp sub ∧
      functionName = "valueForKeyPath:" ∧
      argument.keyPathOf = "@count" ∧
      (PredicateExpression.constantValue (.int 0)) = .constantValue (.int n)) := by
  have hok : apply_function_expression sampleBuilder personSchema
      (.function (.subquery "friends" .tru) "valueForKeyPath:" (.keyPath "@count"))
      .greaterThan (.constantValue (.int 0)) freshState =
      .ok (freshState.andQuery (.atom (.cmp .int .greaterThan
        (.subqueryCount ⟨[], friendsProp⟩ (some .tru)) (.int 0)))) := by
    simp only [apply_function_expression, apply_function_subquery_expression,
      apply_subquery_count_expression, apply_predicate]
    rfl
  exact ⟨hok, claim_C7_subquery_count_only sampleBuilder personSchema _ _ _ _ _ hok⟩

/-- value_of_type resolves a column argument independently of the property type. -/
theorem value_of_type_column (t : PropertyType) (c : ColumnReference) :
    value_of_type t (.column c) = .ok (.col c) := rfl

/-- value_of_type passes realm::null through independently of the property type. -/
theorem value_of_type_null (t : PropertyType) :
    value_of_type t .nullArg = .ok .null := rfl

/-- A non-null constant that passed value validation against a plain column of
numeric property type always converts to an operand. -/
theorem value_of_type_ok_of_numeric_valid
    (column : ColumnReference) (v : QueryMixed)
    (hn : property_type_is_numeric column.type = true)
    (harr : column.property.array = false)
    (hnn : v.isNull = false)
    (hv : is_valid_for_column v column = true) :
    ∃ o, value_of_type column.type (.value v) = .ok o := by
  have hvs : validate_scalar v column.colKey column.property.objectClassName = true := by
    simpa [is_valid_for_column, validate_value, ColumnReference.colKey, harr, hnn] using hv
  cases v <;> cases htp : column.property.type <;>
    simp_all [validate_scalar, QueryMixed.isNull, QueryMixed.getType, ColumnReference.colKey,
      colTypeOf, ColumnReference.type, property_type_is_numeric, type_is_numeric,
      value_of_type]

/-- Against a plain numeric column, a validated constant (or null) on the right
of >= or <= compiles to a single primitive constraint, uniformly in the query
state. -/
theorem add_constraint_numeric_ok
    (g : Group) (column : ColumnReference) (op : OperatorType) (v : QueryMixed)
    (hn : property_type_is_numeric column.type = true)
    (hop : op = .greaterThanOrEqual ∨ op = .lessThanOrEqual)
    (harr : column.property.array = false)
    (hv : is_valid_for_column v column = true) :
    ∃ e : QExpr, ∀ st : QueryState,
      add_constraint g column.type op ComparisonOptions.none (.column column) (.value v) st =
        .ok (st.andQuery e) := by
  by_cases hnull : v.isNull = true
  · have hv0 : v = .null := by cases v <;> simp [QueryMixed.isNull] at hnull <;> rfl
    subst hv0
    refine ⟨.atom (.cmp column.type op (.col column) .null), fun st => ?_⟩
    rcases hop with hop | hop <;> subst hop <;>
      cases htp : column.property.type <;>
        simp_all [add_constraint, cargIsNull, QueryMixed.isNull, do_add_constraint,
          value_of_type_column, value_of_type_null, add_numeric_constraint,
          property_type_is_numeric, ColumnReference.type]
  · have hnn : v.isNull = false := by simpa using hnull
    obtain ⟨o, ho⟩ := value_of_type_ok_of_numeric_valid column v hn harr hnn hv
    refine ⟨.atom (.cmp column.type op (.col column) o), fun st => ?_⟩
    rcases hop with hop | hop <;> subst hop <;>
      cases htp : column.property.type <;>
        simp_all [add_constraint, cargIsNull, do_add_constraint, value_of_type_column,
          add_numeric_constraint, property_type_is_numeric, ColumnReference.type]

/-- C3: on a plain numeric column, BETWEEN with a 2-element array [lo, hi] of
valid bounds compiles to the grouped conjunction of (column >= lo) and
(column <= hi) — each conjunct exactly the constraint the builder emits for the
corresponding single comparison — and a right-hand value that is not an array
of exactly two elements fails with the structural BETWEEN error. -/
theorem claim_C3_between_two_element_array
    (b : QueryBuilder) (column : ColumnReference) (st : QueryState)
    (hlinks : column.has_any_to_many_links = false) :
    (∀ lo hi, property_type_is_numeric column.type = true →
      column.property.array = false →
      is_valid_for_column lo column = true →
      is_valid_for_column hi column = true →
      ∃ e1 e2,
        add_between_constraint b column (.array [lo, hi]) st =
          .ok (st.andQuery (.band e1 e2)) ∧
        (∀ st2, add_constraint b.group column.type .greaterThanOrEqual ComparisonOptions.none
          (.column column) (.value lo) st2 = .ok (st2.andQuery e1)) ∧
        (∀ st2, add_constraint b.group column.type .lessThanOrEqual ComparisonOptions.none
          (.column column) (.value hi) st2 = .ok (st2.andQuery e2)) ∧
        (∀ ρ, QExpr.eval ρ (.band e1 e2) = (QExpr.eval ρ e1 && QExpr.eval ρ e2))) ∧
    (∀ value : QueryMixed, (∀ arr, value = .array arr → arr.length ≠ 2) →
      add_between_constraint b column value st =
        .error "BETWEEN operation requires an array with exactly two values") := by
  constructor
  · intro lo hi hn harr hvlo hvhi
    obtain ⟨e1, he1⟩ := add_constraint_numeric_ok b.group column .greaterThanOrEqual lo hn
      (Or.inl rfl) harr hvlo
    obtain ⟨e2, he2⟩ := add_constraint_numeric_ok b.group column .lessThanOrEqual hi hn
      (Or.inr rfl) harr hvhi
    refine ⟨e1, e2, ?_, he1, he2, fun ρ => rfl⟩
    simp [add_between_constraint, hlinks, add_between_constraint_direct, hvlo, hvhi,
      he1, he2, endGroup_group_two]
  · intro value hlen
    rcases value with _ | _ | _ | _ | _ | _ | _ | _ | _ | _ | _ | vs <;>
      simp [add_between_constraint, hlinks, add_between_constraint_direct]
    rcases vs with _ | ⟨a, _ | ⟨c, _ | ⟨d, vs4⟩⟩⟩ <;>
      simp [add_between_constraint, hlinks, add_between_constraint_direct]
    exact (hlen [a, c] rfl rfl).elim

theorem claim_C3_witness :
    (⟨[], ageProp⟩ : ColumnReference).has_any_to_many_links = false ∧
    is_valid_for_column (.int 1) ⟨[], ageProp⟩ = true ∧
    (∃ e1 e2,
      add_between_constraint sampleBuilder ⟨[], ageProp⟩ (.array [.int 1, .int 5]) freshState =
        .ok (freshState.andQuery (.band e1 e2)) ∧
      (∀ st2, add_constraint sampleBuilder.group (⟨[], ageProp⟩ : ColumnReference).type
        .greaterThanOrEqual ComparisonOptions.none (.column ⟨[], ageProp⟩) (.value (.int 1)) st2 =
          .ok (st2.andQuery e1)) ∧
      (∀ st2, add_constraint sampleBuilder.group (⟨[], ageProp⟩ : ColumnReference).type
        .lessThanOrEqual ComparisonOptions.none (.column ⟨[], ageProp⟩) (.value (.int 5)) st2 =
          .ok (st2.andQuery e2)) ∧
      (∀ ρ, QExpr.eval ρ (.band e1 e2) = (QExpr.eval ρ e1 && QExpr.eval ρ e2))) ∧
    add_between_constraint sampleBuilder ⟨[], ageProp⟩ (.array [.int 1]) freshState =
      .error "BETWEEN operation requires an array with exactly two values" := by
  have h := claim_C3_between_two_element_array sampleBuilder ⟨[], ageProp⟩ freshState rfl
  refine ⟨rfl, rfl, h.1 (.int 1) (.int 5) rfl rfl rfl rfl, ?_⟩
  exact h.2 (.array [.int 1]) (by intro arr harr2; injection harr2 with h2; subst h2; decide)

/-- C4: an IN comparison against a resolved plain column compiles an empty
array to the constant-false expression, a 3-element array [a, b, c] to the
disjunction of the three per-element equality constraints, and fails on any
non-array right-hand side. -/
theorem claim_C4_in_expansion
    (b : QueryBuilder) (desc : RLMObjectSchema) (keyPath : String)
    (modifier : Modifier) (opts : ComparisonOptions) (st : QueryState)
    (column : ColumnReference)
    (hkp : key_path_contains_collection_operator keyPath = false)
    (hres : column_reference_from_key_path b desc keyPath (decide (modifier = Modifier.any)) =
      .ok column) :
    (apply_value_expression b desc keyPath (.array []) true modifier .isIn opts st =
        .ok (st.andQuery .fls) ∧
      (∀ ρ : QAtom → Bool, QExpr.eval ρ .fls = false)) ∧
    (∀ a1 a2 a3 : QueryMixed, ∀ e1 e2 e3 : QExpr,
      (validate_property_value column a1
        "Expected object of type '%1' in IN clause for property '%3.%2', but received: %4"
        desc keyPath = .ok ()) →
      (validate_property_value column a2
        "Expected object of type '%1' in IN clause for property '%3.%2', but received: %4"
        desc keyPath = .ok ()) →
      (validate_property_value column a3
        "Expected object of type '%1' in IN clause for property '%3.%2', but received: %4"
        desc keyPath = .ok ()) →
      (∀ st2, add_constraint b.group column.type .equal opts (.column column) (.value a1) st2 =
        .ok (st2.andQuery e1)) →
      (∀ st2, add_constraint b.group column.type .equal opts (.column column) (.value a2) st2 =
        .ok (st2.andQuery e2)) →
      (∀ st2, add_constraint b.group column.type .equal opts (.column column) (.value a3) st2 =
        .ok (st2.andQuery e3)) →
      (apply_value_expression b desc keyPath (.array [a1, a2, a3]) true modifier .isIn opts st =
          .ok (st.andQuery (.bor (.bor e1 e2) e3)) ∧
        ∀ ρ : QAtom → Bool, QExpr.eval ρ (.bor (.bor e1 e2) e3) =
          (QExpr.eval ρ e1 || QExpr.eval ρ e2 || QExpr.eval ρ e3))) ∧
    (∀ v : QueryMixed, v.getType ≠ some .linkList →
      apply_value_expression b desc keyPath v true modifier .isIn opts st =
        .error "IN clause requires an array of items") := by
  refine ⟨⟨?_, fun ρ => rfl⟩, ?_, ?_⟩
  · simp [apply_value_expression, hkp, hres, in_items, endGroup_group_one]
  · intro a1 a2 a3 e1 e2 e3 hv1 hv2 hv3 he1 he2 he3
    refine ⟨?_, fun ρ => by simp [QExpr.eval, Bool.or_assoc]⟩
    simp [apply_value_expression, hkp, hres, in_items, hv1, hv2, hv3, he1, he2, he3,
      endGroup_group_or3]
  · intro v hv
    cases v <;>
      simp [apply_value_expression, hkp, hres, in_items] <;>
      simp [QueryMixed.getType] at hv

theorem claim_C4_witness :
    (apply_value_expression sampleBuilder personSchema "age" (.array []) true .direct .isIn
        ComparisonOptions.none freshState = .ok (freshState.andQuery .fls)) ∧
    (apply_value_expression sampleBuilder personSchema "age"
        (.array [.int 1, .int 2, .int 3]) true .direct .isIn ComparisonOptions.none freshState =
      .ok (freshState.andQuery
        (.bor (.bor (.atom (.cmp .int .equal (.col ⟨[], ageProp⟩) (.int 1)))
                    (.atom (.cmp .int .equal (.col ⟨[], ageProp⟩) (.int 2))))
              (.atom (.cmp .int .equal (.col ⟨[], ageProp⟩) (.int 3)))))) ∧
    (apply_value_expression sampleBuilder personSchema "age" (.int 7) true .direct .isIn
        ComparisonOptions.none freshState = .error "IN clause requires an array of items") := by
  have h := claim_C4_in_expansion sampleBuilder personSchema "age" .direct
    ComparisonOptions.none freshState ⟨[], ageProp⟩ rfl rfl
  refine ⟨h.1.1, ?_, h.2.2 (.int 7) (by simp [QueryMixed.getType])⟩
  exact (h.2.1 (.int 1) (.int 2) (.int 3)
    (.atom (.cmp .int .equal (.col ⟨[], ageProp⟩) (.int 1)))
    (.atom (.cmp .int .equal (.col ⟨[], ageProp⟩) (.int 2)))
    (.atom (.cmp .int .equal (.col ⟨[], ageProp⟩) (.int 3)))
    rfl rfl rfl (fun st2 => rfl) (fun st2 => rfl) (fun st2 => rfl)).1

end RealmQuery
